import Mathlib

/-!
# Shallow embedding of `printify_king_automation.py`

The script uploads one artwork asset, enumerates the vendor catalog
(blueprints, then print providers per blueprint, then variants for the
first provider), and for each blueprint builds a product payload and
issues a create request followed by a publish request.  Per-blueprint
failures are caught in the top-level loop and logged.

The embedding below mirrors the source:
* vendor response objects become records carrying exactly the fields the
  program reads; the `print_areas` key of a variant is optional because
  the source explicitly tests for its presence (line 75), while `id` and
  `name` are read unconditionally and are therefore total fields;
* Python exceptions become an explicit `PyError` carried in `Except`;
* HTTP calls become oracle functions in an environment record, and every
  function additionally returns the list of requests it issued and the
  log lines it emitted, so that "no request is issued" and "a warning is
  logged" are statable;
* the numeric placeholder coordinates (0.5, 0.5, 1.0) are exact decimal
  literals in the source, embedded as the rationals 1/2, 1/2, 1.
-/

namespace PrintifyKing

/-- A catalog blueprint: the fields the program reads are `id` and `name`. -/
structure Blueprint where
  id : Int
  name : String
deriving Repr, DecidableEq

/-- A print provider: the program reads only `id`. -/
structure Provider where
  id : Int
deriving Repr, DecidableEq

/-- One entry of a variant's `print_areas` list: the program reads `position`. -/
structure PrintAreaEntry where
  position : String
deriving Repr, DecidableEq

/-- A variant: the program reads `id` unconditionally and `print_areas`
behind a key-presence test, so the latter is optional (`none` models an
absent `print_areas` key). -/
structure Variant where
  id : Int
  print_areas : Option (List PrintAreaEntry)
deriving Repr, DecidableEq

/-- The Python exceptions that the embedded fragment can raise:
an HTTP error from `raise_for_status` (or any network/shape error,
carrying its message text) and the `IndexError` from indexing an empty
`print_areas` list. -/
inductive PyError where
  | httpError (msg : String)
  | indexError
deriving Repr, DecidableEq

/-- The message text of an exception, as interpolated by `str(e)` in the
`except` handler. -/
def PyError.text : PyError → String
  | .httpError m => m
  | .indexError => "list index out of range"

/-- One priced entry of the payload's `variants` list (source line 74). -/
structure VariantData where
  id : Int
  price : Int
  is_enabled : Bool
deriving Repr, DecidableEq

/-- One image of a placeholder (source lines 80–86). -/
structure ImageRef where
  id : String
  x : Rat
  y : Rat
  scale : Rat
  angle : Int
deriving Repr, DecidableEq

/-- One placeholder of a print area (source lines 78–87). -/
structure Placeholder where
  position : String
  images : List ImageRef
deriving Repr, DecidableEq

/-- One entry of the payload's `print_areas` list (source lines 76–88). -/
structure PrintAreaPayload where
  variant_ids : List Int
  placeholders : List Placeholder
deriving Repr, DecidableEq

/-- The product payload `product_data` (source lines 89–96). -/
structure ProductData where
  title : String
  description : String
  blueprint_id : Int
  print_provider_id : Int
  variants : List VariantData
  print_areas : List PrintAreaPayload
deriving Repr, DecidableEq

/-- The fixed description template (source lines 69–72). -/
def product_desc (name : String) : String :=
  "Celebrate African pride and culture with this exclusive \x27" ++ name ++
    "\x27 featuring the iconic FC Cabo Verde logo. " ++
    "Perfect for supporters of African design and football heritage."

/-- Source line 75:
`variants[0]["print_areas"][0]["position"] if variants and "print_areas" in variants[0] else "front"`.
The guard tests truthiness of the list and presence of the key; when it
holds, the first entry of `print_areas` is indexed, which raises
`IndexError` when that list is empty. -/
def printAreaPosition (variants : List Variant) : Except PyError String :=
  match variants with
  | [] => Except.ok ("front")
  | v :: _ =>
    match v.print_areas with
    | none => Except.ok ("front")
    | some [] => Except.error PyError.indexError
    | some (pa :: _) => Except.ok pa.position

/-- The pure payload-construction part of `create_and_publish_product`
(source lines 66–96): title, description, the first two variant ids priced
at 2500 and enabled, and a single print area with a single placeholder
holding one centered image. -/
def create_product_data (blueprint : Blueprint) (provider : Provider)
    (variants : List Variant) (image_id : String) : Except PyError ProductData :=
  let title := blueprint.name ++ " – African Heritage Series"
  let desc := product_desc blueprint.name
  let variant_ids := (variants.map Variant.id).take 2
  let variant_data := variant_ids.map (fun vid =>
    { id := vid, price := 2500, is_enabled := true : VariantData })
  match printAreaPosition variants with
  | Except.error e => Except.error e
  | Except.ok pos =>
    Except.ok
      { title := title
        description := desc
        blueprint_id := blueprint.id
        print_provider_id := provider.id
        variants := variant_data
        print_areas := [{ variant_ids := variant_ids
                          placeholders := [{ position := pos
                                             images := [{ id := image_id, x := 1/2, y := 1/2,
                                                          scale := 1, angle := 0 }] }] }] }

/-- The HTTP requests the embedded fragment can issue. -/
inductive Request where
  | uploadReq
  | blueprintsReq
  | providersReq (blueprint_id : Int)
  | variantsReq (blueprint_id : Int) (provider_id : Int)
  | createReq (data : ProductData)
  | publishReq (product_id : String)
deriving Repr, DecidableEq

/-- A log line, tagged with its level. -/
inductive LogLine where
  | info (msg : String)
  | warning (msg : String)
  | error (msg : String)
deriving Repr, DecidableEq

/-- Oracles for the per-blueprint HTTP calls.  Each call either returns
the decoded response body or raises (network error / `raise_for_status`
on a non-2xx response / response-shape error), modelled by `Except`. -/
structure Env where
  fetch_print_providers : Int → Except PyError (List Provider)
  fetch_variants : Int → Int → Except PyError (List Variant)
  create_product : ProductData → Except PyError String
  publish_product : String → Except PyError Unit

/-- The result of a fragment that issues requests, logs, and may raise. -/
structure StepResult (α : Type) where
  requests : List Request
  logs : List LogLine
  result : Except PyError α

/-- `create_and_publish_product` (source lines 66–107): build the payload
(which can raise before any request is issued), POST it, extract the
product id, log, then POST the publish request and log.  A raise at any
point aborts the remaining steps; requests already issued stay issued. -/
def create_and_publish_product (env : Env) (blueprint : Blueprint)
    (provider : Provider) (variants : List Variant) (image_id : String) :
    StepResult Unit :=
  let title := blueprint.name ++ " – African Heritage Series"
  match create_product_data blueprint provider variants image_id with
  | Except.error e => ⟨[], [], Except.error e⟩
  | Except.ok product_data =>
    match env.create_product product_data with
    | Except.error e => ⟨[Request.createReq product_data], [], Except.error e⟩
    | Except.ok product_id =>
      let createLog := LogLine.info
        ("Created product: " ++ title ++ " (ID: " ++ product_id ++ ")")
      match env.publish_product product_id with
      | Except.error e =>
        ⟨[Request.createReq product_data, Request.publishReq product_id],
          [createLog], Except.error e⟩
      | Except.ok _ =>
        ⟨[Request.createReq product_data, Request.publishReq product_id],
          [createLog, LogLine.info ("Published product: " ++ title)],
          Except.ok ()⟩

/-- The three normal terminal states of one blueprint plus the
caught-failure state (source §main, lines 113–126). -/
inductive Outcome where
  | published
  | skippedNoProviders
  | skippedNoVariants
  | failed (errText : String)
deriving Repr, DecidableEq

/-- The body of the `try` block for one blueprint (source lines 115–124):
fetch providers, skip-and-warn when empty, take the first provider, fetch
its variants, skip-and-warn when empty, else create and publish.  Any
raise propagates. -/
def process_blueprint_try (env : Env) (bp : Blueprint) (image_id : String) :
    StepResult Outcome :=
  match env.fetch_print_providers bp.id with
  | Except.error e => ⟨[Request.providersReq bp.id], [], Except.error e⟩
  | Except.ok providers =>
    match providers with
    | [] =>
      ⟨[Request.providersReq bp.id],
        [LogLine.warning ("No providers for blueprint: " ++ bp.name)],
        Except.ok Outcome.skippedNoProviders⟩
    | provider :: _ =>
      match env.fetch_variants bp.id provider.id with
      | Except.error e =>
        ⟨[Request.providersReq bp.id, Request.variantsReq bp.id provider.id],
          [], Except.error e⟩
      | Except.ok variants =>
        match variants with
        | [] =>
          ⟨[Request.providersReq bp.id, Request.variantsReq bp.id provider.id],
            [LogLine.warning ("No variants for provider " ++ toString provider.id ++
              " of blueprint " ++ bp.name)],
            Except.ok Outcome.skippedNoVariants⟩
        | _ :: _ =>
          let r := create_and_publish_product env bp provider variants image_id
          ⟨[Request.providersReq bp.id, Request.variantsReq bp.id provider.id] ++
              r.requests,
            r.logs,
            r.result.map (fun _ => Outcome.published)⟩

/-- One iteration of the top-level loop (source lines 114–126): run the
`try` body; on a raise, catch it and log
`Failed for {blueprint name}: {error}`. -/
def process_blueprint (env : Env) (bp : Blueprint) (image_id : String) :
    List Request × List LogLine × Outcome :=
  let r := process_blueprint_try env bp image_id
  match r.result with
  | Except.ok o => (r.requests, r.logs, o)
  | Except.error e =>
    (r.requests,
      r.logs ++ [LogLine.error ("Failed for " ++ bp.name ++ ": " ++ e.text)],
      Outcome.failed e.text)

/-- The top-level `for blueprint in blueprints` loop (source lines
113–126), accumulating requests, logs and one outcome per blueprint. -/
def main_loop (env : Env) (blueprints : List Blueprint) (image_id : String) :
    List Request × List LogLine × List Outcome :=
  match blueprints with
  | [] => ([], [], [])
  | bp :: rest =>
    let r := process_blueprint env bp image_id
    let r2 := main_loop env rest image_id
    (r.1 ++ r2.1, r.2.1 ++ r2.2.1, r.2.2 :: r2.2.2)

/-- Python truthiness of `os.getenv`'s result: `None` and the empty
string are falsy, any other string is truthy. -/
def truthy : Option String → Bool
  | none => false
  | some s => !s.isEmpty

/-- The credentials read from the environment (source lines 23–24). -/
structure Config where
  api_key : Option String
  store_id : Option String

/-- The error line of `ensure_config` (source line 31). -/
def configErrorMsg : String :=
  "Set PRINTIFY_API_KEY and PRINTIFY_STORE_ID as environment variables."

/-- `ensure_config` (source lines 29–32): when either credential is falsy
log an error and exit with status 1 (returned as `some 1`); otherwise do
nothing (`([], none)`). -/
def ensure_config (cfg : Config) : List LogLine × Option Nat :=
  if !truthy cfg.api_key || !truthy cfg.store_id then
    ([LogLine.error configErrorMsg], some 1)
  else
    ([], none)

/-- Oracles for the run-level calls of `main`: the asset upload
(`upload_logo`, returning the response's `id` field) and the blueprint
listing (`fetch_blueprints`). -/
structure FullEnv extends Env where
  upload_logo : Except PyError String
  fetch_blueprints : Except PyError (List Blueprint)

/-- How a run of `main` ends: `exit(1)` from the configuration check, an
uncaught exception from upload or blueprint listing, or normal completion
with one outcome per blueprint. -/
inductive MainResult where
  | exited (code : Nat)
  | crashed (e : PyError)
  | completed (outcomes : List Outcome)
deriving Repr

/-- `main` (source lines 109–126): configuration check, asset upload,
blueprint listing, then the per-blueprint loop.  Upload and listing
failures are not caught anywhere and crash the run. -/
def main (cfg : Config) (env : FullEnv) :
    List Request × List LogLine × MainResult :=
  match ensure_config cfg with
  | (ls, some code) => ([], ls, MainResult.exited code)
  | (ls, none) =>
    let l0 := ls ++ [LogLine.info ("Uploading your African design logo to Printify...")]
    match env.upload_logo with
    | Except.error e => ([Request.uploadReq], l0, MainResult.crashed e)
    | Except.ok image_id =>
      let l1 := l0 ++
        [LogLine.info ("Logo uploaded, image ID: " ++ image_id),
         LogLine.info ("Fetching all available product blueprints from Printify...")]
      match env.fetch_blueprints with
      | Except.error e =>
        ([Request.uploadReq, Request.blueprintsReq], l1, MainResult.crashed e)
      | Except.ok blueprints =>
        let l2 := l1 ++ [LogLine.info ("Found " ++ toString blueprints.length ++ " blueprints.")]
        let r := main_loop env.toEnv blueprints image_id
        ([Request.uploadReq, Request.blueprintsReq] ++ r.1,
          l2 ++ r.2.1, MainResult.completed r.2.2)

/-! ## Concrete fixtures used by the witnesses -/

/-- The blueprint of the spec's end-to-end scenario. -/
def bpTee : Blueprint := { id := 11, name := "Classic Tee" }

/-- The three variants of the end-to-end scenario, ids 101/102/103, each
carrying a one-entry `print_areas` list with position `front`. -/
def teeVariants : List Variant :=
  [{ id := 101, print_areas := some [{ position := "front" }] },
   { id := 102, print_areas := some [{ position := "front" }] },
   { id := 103, print_areas := some [{ position := "front" }] }]

/-- The payload the program builds in the end-to-end scenario. -/
def teePd : ProductData :=
  { title := "Classic Tee – African Heritage Series"
    description := product_desc ("Classic Tee")
    blueprint_id := 11
    print_provider_id := 7
    variants := [{ id := 101, price := 2500, is_enabled := true },
                 { id := 102, price := 2500, is_enabled := true }]
    print_areas := [{ variant_ids := [101, 102]
                      placeholders := [{ position := "front"
                                         images := [{ id := "IMG", x := 1/2, y := 1/2,
                                                      scale := 1, angle := 0 }] }] }] }

/-- An environment in which every per-blueprint HTTP call raises. -/
def envFail : Env :=
  { fetch_print_providers := fun _ => Except.error (PyError.httpError ("boom"))
    fetch_variants := fun _ _ => Except.error (PyError.httpError ("boom"))
    create_product := fun _ => Except.error (PyError.httpError ("boom"))
    publish_product := fun _ => Except.error (PyError.httpError ("boom")) }

/-- An environment in which discovery and creation succeed for the
scenario blueprint but the publish request returns a non-2xx response. -/
def envPubFail : Env :=
  { fetch_print_providers := fun _ => Except.ok [{ id := 7 }]
    fetch_variants := fun _ _ => Except.ok teeVariants
    create_product := fun _ => Except.ok ("P1")
    publish_product := fun _ => Except.error (PyError.httpError ("503")) }

/-- An environment in which every blueprint has no print providers. -/
def envNoProviders : Env :=
  { fetch_print_providers := fun _ => Except.ok []
    fetch_variants := fun _ _ => Except.error (PyError.httpError ("boom"))
    create_product := fun _ => Except.error (PyError.httpError ("boom"))
    publish_product := fun _ => Except.error (PyError.httpError ("boom")) }

/-- An environment with one provider whose variant list is empty. -/
def envNoVariants : Env :=
  { fetch_print_providers := fun _ => Except.ok [{ id := 7 }]
    fetch_variants := fun _ _ => Except.ok []
    create_product := fun _ => Except.error (PyError.httpError ("boom"))
    publish_product := fun _ => Except.error (PyError.httpError ("boom")) }

/-- A run-level environment whose uncached calls all raise; only used to
instantiate `main` where the configuration check already stops the run. -/
def fullEnvFail : FullEnv :=
  { toEnv := envFail
    upload_logo := Except.error (PyError.httpError ("boom"))
    fetch_blueprints := Except.error (PyError.httpError ("boom")) }

/-! ## Helper lemmas shared by several claims -/

/-- The loop produces exactly one outcome per blueprint, in order. -/
lemma main_loop_outcomes (env : Env) (bps : List Blueprint) (iid : String) :
    (main_loop env bps iid).2.2
      = bps.map (fun bp => (process_blueprint env bp iid).2.2) := by
  induction bps with
  | nil => rfl
  | cons bp rest ih => simp [main_loop, ih]

/-- The loop's log is the concatenation of the per-blueprint logs. -/
lemma main_loop_logs_cons (env : Env) (bp : Blueprint) (rest : List Blueprint)
    (iid : String) :
    (main_loop env (bp :: rest) iid).2.1
      = (process_blueprint env bp iid).2.1 ++ (main_loop env rest iid).2.1 := rfl

/-- The loop's request trace is the concatenation of the per-blueprint
request traces. -/
lemma main_loop_requests_cons (env : Env) (bp : Blueprint) (rest : List Blueprint)
    (iid : String) :
    (main_loop env (bp :: rest) iid).1
      = (process_blueprint env bp iid).1 ++ (main_loop env rest iid).1 := rfl

/-! ## The claims -/

/-- C5: in the end-to-end scenario — blueprint "Classic Tee", provider id
7, variants 101/102/103 each with print-area position "front", uploaded
image id "IMG" — the constructed payload has title
"Classic Tee – African Heritage Series", variant list
[{id:101,price:2500,is_enabled:true},{id:102,price:2500,is_enabled:true}],
and a single print-area placeholder at position "front" with a single
image referencing "IMG" at (1/2, 1/2), scale 1, angle 0. -/
theorem classic_tee_scenario :
    ∃ pd : ProductData,
      create_product_data bpTee { id := 7 } teeVariants ("IMG") = Except.ok pd ∧
      pd.title = "Classic Tee – African Heritage Series" ∧
      pd.variants = [{ id := 101, price := 2500, is_enabled := true },
                     { id := 102, price := 2500, is_enabled := true }] ∧
      pd.print_areas =
        [{ variant_ids := [101, 102]
           placeholders := [{ position := "front"
                              images := [{ id := "IMG", x := 1/2, y := 1/2,
                                           scale := 1, angle := 0 }] }] }] :=
  ⟨teePd, rfl, rfl, rfl, rfl⟩

/-- C3 (counterexample to the claim as stated): when the first variant
carries a `print_areas` key holding an empty list, no print-area entry is
present, yet the construction raises `IndexError` instead of defaulting
the position to "front" — no payload is built at all. -/
theorem print_area_empty_list_raises :
    create_product_data bpTee { id := 7 }
        [{ id := 101, print_areas := some [] }] ("IMG")
      = Except.error PyError.indexError := rfl

/-- C3 (amended): for a non-empty variant list, the position is the first
variant's first print-area entry when the `print_areas` field is present
and non-empty; it defaults to "front" when the field is absent (or the
variant list empty); when the field is present but empty, construction
raises `IndexError`.  Every successfully constructed payload holds a
single placeholder image referencing the uploaded asset id at
(1/2, 1/2), scale 1, angle 0. -/
theorem print_area_position_spec (bp : Blueprint) (pr : Provider) (v : Variant)
    (vs : List Variant) (iid : String) :
    (v.print_areas = none → printAreaPosition (v :: vs) = Except.ok ("front")) ∧
    (∀ pa : PrintAreaEntry, ∀ pas : List PrintAreaEntry,
      v.print_areas = some (pa :: pas) →
        printAreaPosition (v :: vs) = Except.ok pa.position) ∧
    (v.print_areas = some [] →
      printAreaPosition (v :: vs) = Except.error PyError.indexError) ∧
    (∀ pd : ProductData,
      create_product_data bp pr (v :: vs) iid = Except.ok pd →
        ∃ pos : String, printAreaPosition (v :: vs) = Except.ok pos ∧
          pd.print_areas =
            [{ variant_ids := ((v :: vs).map Variant.id).take 2
               placeholders := [{ position := pos
                                  images := [{ id := iid, x := 1/2, y := 1/2,
                                               scale := 1, angle := 0 }] }] }]) := by
  refine ⟨?_, ?_, ?_, ?_⟩
  · intro h; simp [printAreaPosition, h]
  · intro pa pas h; simp [printAreaPosition, h]
  · intro h; simp [printAreaPosition, h]
  · intro pd h
    unfold create_product_data at h
    rcases h' : printAreaPosition (v :: vs) with e | pos
    · rw [h'] at h; exact absurd h (by simp)
    · rw [h'] at h
      refine ⟨pos, rfl, ?_⟩
      cases h
      rfl

/-- C3 witness: with a first variant lacking the `print_areas` field the
position defaults to "front". -/
theorem print_area_position_spec_witness :
    printAreaPosition [{ id := 101, print_areas := none }] = Except.ok ("front") :=
  (print_area_position_spec bpTee { id := 7 } { id := 101, print_areas := none }
    [] ("IMG")).1 rfl

/-- C4: for a variant list with at least two entries, every successfully
constructed payload prices exactly the first two variants, at 2500, each
enabled. -/
theorem payload_two_variants (bp : Blueprint) (pr : Provider)
    (v1 v2 : Variant) (vs : List Variant) (iid : String) (pd : ProductData)
    (h : create_product_data bp pr (v1 :: v2 :: vs) iid = Except.ok pd) :
    pd.variants = [{ id := v1.id, price := 2500, is_enabled := true },
                   { id := v2.id, price := 2500, is_enabled := true }] := by
  unfold create_product_data at h
  rcases h' : printAreaPosition (v1 :: v2 :: vs) with e | pos
  · rw [h'] at h; exact absurd h (by simp)
  · rw [h'] at h
    cases h
    rfl

/-- C4 witness: the scenario payload prices variants 101 and 102. -/
theorem payload_two_variants_witness :
    teePd.variants = [{ id := 101, price := 2500, is_enabled := true },
                      { id := 102, price := 2500, is_enabled := true }] :=
  payload_two_variants bpTee { id := 7 } { id := 101, print_areas := some [{ position := "front" }] }
    { id := 102, print_areas := some [{ position := "front" }] }
    [{ id := 103, print_areas := some [{ position := "front" }] }] ("IMG") teePd rfl

/-- C9: for a single-variant list (with a well-formed `print_areas`
field, i.e. absent or non-empty), construction succeeds and the payload
contains exactly one variant entry — that variant's id, price 2500,
enabled — rather than failing or padding to two entries. -/
theorem single_variant_payload (bp : Blueprint) (pr : Provider) (vid : Int)
    (pas : Option (List PrintAreaEntry)) (iid : String)
    (h : pas ≠ some []) :
    ∃ pd : ProductData,
      create_product_data bp pr [{ id := vid, print_areas := pas }] iid
        = Except.ok pd ∧
      pd.variants = [{ id := vid, price := 2500, is_enabled := true }] := by
  match pas with
  | none => exact ⟨_, rfl, rfl⟩
  | some [] => exact absurd rfl h
  | some (pa :: l) => exact ⟨_, rfl, rfl⟩

/-- C9 witness: a single variant with id 101 and no `print_areas` field
yields a one-entry variant list. -/
theorem single_variant_payload_witness :
    ∃ pd : ProductData,
      create_product_data bpTee { id := 7 } [{ id := 101, print_areas := none }] ("IMG")
        = Except.ok pd ∧
      pd.variants = [{ id := 101, price := 2500, is_enabled := true }] :=
  single_variant_payload bpTee { id := 7 } 101 none ("IMG") (by simp)

/-- C10: every successfully constructed payload has exactly one
`print_areas` entry, and that entry's `variant_ids` are exactly the ids
of the payload's priced variant entries. -/
theorem print_area_variant_ids_match (bp : Blueprint) (pr : Provider)
    (variants : List Variant) (iid : String) (pd : ProductData)
    (h : create_product_data bp pr variants iid = Except.ok pd) :
    ∃ pa : PrintAreaPayload, pd.print_areas = [pa] ∧
      pa.variant_ids = pd.variants.map VariantData.id := by
  unfold create_product_data at h
  rcases h' : printAreaPosition variants with e | pos
  · rw [h'] at h; exact absurd h (by simp)
  · rw [h'] at h
    cases h
    refine ⟨_, rfl, ?_⟩
    rw [List.map_map]
    exact (List.map_id _).symm

/-- C10 witness: in the scenario payload, the single print area's
`variant_ids` [101, 102] coincide with the ids of the priced variants. -/
theorem print_area_variant_ids_match_witness :
    ∃ pa : PrintAreaPayload, teePd.print_areas = [pa] ∧
      pa.variant_ids = teePd.variants.map VariantData.id :=
  print_area_variant_ids_match bpTee { id := 7 } teeVariants ("IMG") teePd rfl

/-- C1: the loop never aborts — it yields one outcome per blueprint, in
order, whatever the environment does — and whenever the `try` body for a
blueprint raises, the exception is caught: that blueprint's outcome is
the caught-failure state and a log line with the blueprint's name and the
error text is emitted. -/
theorem main_loop_isolates_blueprint_failures (env : Env) (bps : List Blueprint)
    (iid : String) :
    (main_loop env bps iid).2.2
      = bps.map (fun bp => (process_blueprint env bp iid).2.2) ∧
    ∀ bp : Blueprint, ∀ e : PyError,
      (process_blueprint_try env bp iid).result = Except.error e →
        (process_blueprint env bp iid).2.2 = Outcome.failed e.text ∧
        LogLine.error ("Failed for " ++ bp.name ++ ": " ++ e.text)
          ∈ (process_blueprint env bp iid).2.1 := by
  refine ⟨main_loop_outcomes env bps iid, ?_⟩
  intro bp e h
  simp [process_blueprint, h]

/-- C1 witness: in an environment where the provider request raises, the
blueprint's outcome is the caught failure and the error is logged with
the blueprint's name. -/
theorem main_loop_isolates_blueprint_failures_witness :
    (process_blueprint envFail bpTee ("IMG")).2.2
      = Outcome.failed ((PyError.httpError ("boom")).text) ∧
    LogLine.error ("Failed for " ++ bpTee.name ++ ": " ++ (PyError.httpError ("boom")).text)
      ∈ (process_blueprint envFail bpTee ("IMG")).2.1 :=
  (main_loop_isolates_blueprint_failures envFail [bpTee] ("IMG")).2 bpTee
    (PyError.httpError ("boom")) rfl

/-- C2: when discovery and product creation for a blueprint succeed but
the publish request raises, the error is caught and logged with the
blueprint's name, and every following blueprint is still processed. -/
theorem publish_failure_logged_and_loop_continues (env : Env) (bp : Blueprint)
    (rest : List Blueprint) (iid : String) (provider : Provider)
    (ps : List Provider) (v : Variant) (vs : List Variant) (pd : ProductData)
    (pid : String) (e : PyError)
    (hprov : env.fetch_print_providers bp.id = Except.ok (provider :: ps))
    (hvar : env.fetch_variants bp.id provider.id = Except.ok (v :: vs))
    (hpd : create_product_data bp provider (v :: vs) iid = Except.ok pd)
    (hc : env.create_product pd = Except.ok pid)
    (hp : env.publish_product pid = Except.error e) :
    LogLine.error ("Failed for " ++ bp.name ++ ": " ++ e.text)
      ∈ (main_loop env (bp :: rest) iid).2.1 ∧
    (main_loop env (bp :: rest) iid).2.2
      = Outcome.failed e.text
          :: rest.map (fun b => (process_blueprint env b iid).2.2) := by
  have htry : (process_blueprint_try env bp iid).result = Except.error e := by
    simp [process_blueprint_try, hprov, hvar, create_and_publish_product, hpd, hc,
      hp, Except.map]
  constructor
  · rw [main_loop_logs_cons]
    refine List.mem_append_left _ ?_
    simp only [process_blueprint, htry]
    simp
  · rw [main_loop_outcomes, List.map_cons]
    congr 1
    simp only [process_blueprint, htry]

/-- C2 witness: with the scenario blueprint, creation returning id "P1"
and publish answering 503, the failure is logged with the blueprint name
and the (empty) remainder of the list is still processed. -/
theorem publish_failure_logged_witness :
    LogLine.error ("Failed for " ++ bpTee.name ++ ": " ++ (PyError.httpError ("503")).text)
      ∈ (main_loop envPubFail [bpTee] ("IMG")).2.1 ∧
    (main_loop envPubFail [bpTee] ("IMG")).2.2
      = [Outcome.failed ((PyError.httpError ("503")).text)] :=
  publish_failure_logged_and_loop_continues envPubFail bpTee [] ("IMG")
    { id := 7 } [] { id := 101, print_areas := some [{ position := "front" }] }
    [{ id := 102, print_areas := some [{ position := "front" }] },
     { id := 103, print_areas := some [{ position := "front" }] }]
    teePd ("P1") (PyError.httpError ("503")) rfl rfl rfl rfl rfl

/-- C6: when both credentials are present (set and non-empty, i.e. truthy
in Python), the configuration check passes silently — no log, no exit;
when either is missing, the run exits with status 1 after logging the
error, and no request whatsoever (upload, catalog or otherwise) is
issued. -/
theorem config_check_gates_run (cfg : Config) (env : FullEnv) :
    (truthy cfg.api_key = true → truthy cfg.store_id = true →
      ensure_config cfg = ([], none)) ∧
    (truthy cfg.api_key = false ∨ truthy cfg.store_id = false →
      (main cfg env).1 = [] ∧
      (main cfg env).2.1 = [LogLine.error configErrorMsg] ∧
      (main cfg env).2.2 = MainResult.exited 1) := by
  constructor
  · intro h1 h2
    simp [ensure_config, h1, h2]
  · intro h
    have hcond : (!truthy cfg.api_key || !truthy cfg.store_id) = true := by
      rcases h with h | h <;> simp [h]
    simp [main, ensure_config, hcond]

/-- C6 witness: with both credentials set the check is silent; with the
API key unset the run exits with status 1, logs the error, and issues no
request. -/
theorem config_check_gates_run_witness :
    ensure_config { api_key := some ("k"), store_id := some ("s") } = ([], none) ∧
    (main { api_key := none, store_id := some ("s") } fullEnvFail).1 = [] ∧
    (main { api_key := none, store_id := some ("s") } fullEnvFail).2.1
      = [LogLine.error configErrorMsg] ∧
    (main { api_key := none, store_id := some ("s") } fullEnvFail).2.2
      = MainResult.exited 1 :=
  ⟨(config_check_gates_run { api_key := some ("k"), store_id := some ("s") }
      fullEnvFail).1 rfl rfl,
   (config_check_gates_run { api_key := none, store_id := some ("s") }
      fullEnvFail).2 (Or.inl rfl)⟩

/-- C7: when a blueprint's provider list comes back empty, the only
request issued for it is the provider listing — no variant request, no
creation request — a warning naming the blueprint is the only log line,
the outcome is the skip state (no raise), and every following blueprint
is still processed. -/
theorem empty_providers_skipped (env : Env) (bp : Blueprint)
    (rest : List Blueprint) (iid : String)
    (h : env.fetch_print_providers bp.id = Except.ok []) :
    (process_blueprint env bp iid).1 = [Request.providersReq bp.id] ∧
    (process_blueprint env bp iid).2.1
      = [LogLine.warning ("No providers for blueprint: " ++ bp.name)] ∧
    (process_blueprint env bp iid).2.2 = Outcome.skippedNoProviders ∧
    (main_loop env (bp :: rest) iid).2.2
      = Outcome.skippedNoProviders
          :: rest.map (fun b => (process_blueprint env b iid).2.2) := by
  have h1 : process_blueprint env bp iid
      = ([Request.providersReq bp.id],
         [LogLine.warning ("No providers for blueprint: " ++ bp.name)],
         Outcome.skippedNoProviders) := by
    simp [process_blueprint, process_blueprint_try, h]
  refine ⟨?_, ?_, ?_, ?_⟩
  · rw [h1]
  · rw [h1]
  · rw [h1]
  · rw [main_loop_outcomes, List.map_cons, h1]

/-- C7 witness: an empty provider list for the scenario blueprint yields
exactly one request, one warning, and the skip outcome. -/
theorem empty_providers_skipped_witness :
    (process_blueprint envNoProviders bpTee ("IMG")).1
      = [Request.providersReq bpTee.id] ∧
    (process_blueprint envNoProviders bpTee ("IMG")).2.1
      = [LogLine.warning ("No providers for blueprint: " ++ bpTee.name)] ∧
    (process_blueprint envNoProviders bpTee ("IMG")).2.2
      = Outcome.skippedNoProviders ∧
    (main_loop envNoProviders [bpTee] ("IMG")).2.2
      = [Outcome.skippedNoProviders] :=
  empty_providers_skipped envNoProviders bpTee [] ("IMG") rfl

/-- C8: when the first provider's variant list comes back empty, the
requests issued for that blueprint are exactly the provider listing and
the variant listing — no creation request — a warning naming the provider
and the blueprint is the only log line, the outcome is the skip state,
and every following blueprint is still processed. -/
theorem empty_variants_skipped (env : Env) (bp : Blueprint)
    (rest : List Blueprint) (iid : String) (provider : Provider)
    (ps : List Provider)
    (hprov : env.fetch_print_providers bp.id = Except.ok (provider :: ps))
    (hvar : env.fetch_variants bp.id provider.id = Except.ok []) :
    (process_blueprint env bp iid).1
      = [Request.providersReq bp.id, Request.variantsReq bp.id provider.id] ∧
    (process_blueprint env bp iid).2.1
      = [LogLine.warning ("No variants for provider " ++ toString provider.id ++
          " of blueprint " ++ bp.name)] ∧
    (process_blueprint env bp iid).2.2 = Outcome.skippedNoVariants ∧
    (main_loop env (bp :: rest) iid).2.2
      = Outcome.skippedNoVariants
          :: rest.map (fun b => (process_blueprint env b iid).2.2) := by
  have h1 : process_blueprint env bp iid
      = ([Request.providersReq bp.id, Request.variantsReq bp.id provider.id],
         [LogLine.warning ("No variants for provider " ++ toString provider.id ++
           " of blueprint " ++ bp.name)],
         Outcome.skippedNoVariants) := by
    simp [process_blueprint, process_blueprint_try, hprov, hvar]
  refine ⟨?_, ?_, ?_, ?_⟩
  · rw [h1]
  · rw [h1]
  · rw [h1]
  · rw [main_loop_outcomes, List.map_cons, h1]

/-- C8 witness: provider 7 of the scenario blueprint with an empty
variant list yields exactly the two discovery requests, one warning, and
the skip outcome. -/
theorem empty_variants_skipped_witness :
    (process_blueprint envNoVariants bpTee ("IMG")).1
      = [Request.providersReq bpTee.id, Request.variantsReq bpTee.id 7] ∧
    (process_blueprint envNoVariants bpTee ("IMG")).2.1
      = [LogLine.warning ("No variants for provider " ++ toString (7 : Int) ++
          " of blueprint " ++ bpTee.name)] ∧
    (process_blueprint envNoVariants bpTee ("IMG")).2.2
      = Outcome.skippedNoVariants ∧
    (main_loop envNoVariants [bpTee] ("IMG")).2.2
      = [Outcome.skippedNoVariants] :=
  empty_variants_skipped envNoVariants bpTee [] ("IMG") { id := 7 } [] rfl rfl

end PrintifyKing
